import Mathlib

/-!
Verification development for the `251121-langchain-study` repository.

Each Lean definition below is a shallow embedding of a function of the
Python source, translated directly from it (file and line references are
given next to every definition).  Machine integers are `Int`/`Nat`
(Python integers are unbounded, so no wrap-around is modelled), Python
exceptions are `Except`, and the asynchronous event loop of `app6` is
modelled as explicit schedules of submit/complete events.
-/

/- ===================================================================
   Part 1: the calculator tools.

   Sources:
   - `src/apps/03-interactive-chat-trich/tools.py`, `calculate`
     (allow-list check, then `eval` with empty builtins);
   - `src/libs/m-tools/src/m_tools/common.py`, `calculator`
     (no character check, `eval` with empty builtins);
   - `src/apps/app4/main.py`, `calc`
     (no character check, `eval` with the `math` namespace).

   `pyEval` below embeds Python `eval` restricted to arithmetic
   expressions over integer literals with the operators
   `+ - * / % ** ( )`, unary `+`/`-` and spaces, which is the grammar
   the tools are documented for.  Deviations, each flagged where it
   occurs and exercised by no theorem: decimal literals, identifiers
   (the `math` names of app4), float `%` and float `**` are mapped to
   errors rather than to Python's exact behaviour, and the rendering of
   non-integral floats is a placeholder.
   =================================================================== -/

/-- Python exceptions that the embedded evaluator can raise.  `str()` of
`ZeroDivisionError` in CPython is exactly "division by zero"; the texts
of the other two are approximations and no theorem depends on them. -/
inductive PyExc where
  | zeroDiv
  | syntaxErr
  | typeErr
deriving DecidableEq, Repr

def pyExcStr : PyExc → String
  | PyExc.zeroDiv => "division by zero"
  | PyExc.syntaxErr => "invalid syntax"
  | PyExc.typeErr => "unsupported operand type"

/-- A Python value produced by an arithmetic expression: an `int` or a
`float`.  Python floats are binary; we model them as exact rationals,
which agrees with Python on every value any theorem below touches. -/
inductive PyVal where
  | vint (n : Int)
  | vfloat (q : Rat)
deriving DecidableEq, Repr

def PyVal.toRat : PyVal → Rat
  | PyVal.vint n => (n : Rat)
  | PyVal.vfloat q => q

/-- Python `str()` of a value.  `str(14) = "14"`; `str(2.0) = "2.0"`.  The
non-integral float case is a placeholder (Python prints a decimal
expansion); no theorem evaluates it. -/
def pyRepr : PyVal → String
  | PyVal.vint n => toString n
  | PyVal.vfloat q => if q.den = 1 then toString q.num ++ ".0" else "float:" ++ toString q

def pyNeg : PyVal → PyVal
  | PyVal.vint n => PyVal.vint (-n)
  | PyVal.vfloat q => PyVal.vfloat (-q)

/-- Python `+`: int+int is int, otherwise float. -/
def pyAdd : PyVal → PyVal → PyVal
  | PyVal.vint a, PyVal.vint b => PyVal.vint (a + b)
  | a, b => PyVal.vfloat (a.toRat + b.toRat)

def pySub : PyVal → PyVal → PyVal
  | PyVal.vint a, PyVal.vint b => PyVal.vint (a - b)
  | a, b => PyVal.vfloat (a.toRat - b.toRat)

def pyMul : PyVal → PyVal → PyVal
  | PyVal.vint a, PyVal.vint b => PyVal.vint (a * b)
  | a, b => PyVal.vfloat (a.toRat * b.toRat)

/-- Python `/` is true division: the result is always a float, and a
zero divisor raises `ZeroDivisionError`. -/
def pyDiv (a b : PyVal) : Except PyExc PyVal :=
  if b.toRat = 0 then Except.error PyExc.zeroDiv
  else Except.ok (PyVal.vfloat (a.toRat / b.toRat))

/-- Python `%` on integers is floor modulus (`Int.fmod`); a zero divisor
raises `ZeroDivisionError`.  Float `%` is not modelled (mapped to an
error); no theorem reaches it. -/
def pyMod : PyVal → PyVal → Except PyExc PyVal
  | PyVal.vint a, PyVal.vint b =>
      if b = 0 then Except.error PyExc.zeroDiv else Except.ok (PyVal.vint (Int.fmod a b))
  | _, _ => Except.error PyExc.typeErr

/-- Python `**` with an integer exponent: a non-negative exponent keeps
the kind of the base; a negative exponent gives a float (and `0` raised
to a negative power raises `ZeroDivisionError`).  Float exponents are
not modelled; no theorem reaches them. -/
def pyPow : PyVal → PyVal → Except PyExc PyVal
  | PyVal.vint a, PyVal.vint e =>
      if 0 ≤ e then Except.ok (PyVal.vint (a ^ e.toNat))
      else if a = 0 then Except.error PyExc.zeroDiv
      else Except.ok (PyVal.vfloat ((1 / (a : Rat)) ^ e.natAbs))
  | PyVal.vfloat q, PyVal.vint e =>
      if 0 ≤ e then Except.ok (PyVal.vfloat (q ^ e.toNat))
      else if q = 0 then Except.error PyExc.zeroDiv
      else Except.ok (PyVal.vfloat ((1 / q) ^ e.natAbs))
  | _, _ => Except.error PyExc.typeErr

inductive CalcTok where
  | num (n : Nat)
  | plus
  | minus
  | star
  | slash
  | percent
  | dstar
  | lpar
  | rpar
deriving DecidableEq, Repr

def digitVal (c : Char) : Nat := c.toNat - 48

/-- Consume a run of leading decimal digits, accumulating their value. -/
def readDigits : List Char → Nat → Nat × List Char
  | [], acc => (acc, [])
  | c :: cs, acc =>
      if c.isDigit then readDigits cs (acc * 10 + digitVal c) else (acc, c :: cs)

/-- Tokenizer for the arithmetic grammar.  Spaces are skipped, digit
runs become integer literals, `**` is a single token.  Any other
character (letters, `.`, ...) is mapped to a syntax error; CPython
would raise `NameError` for identifiers outside the namespace and
`SyntaxError` otherwise, and would read float literals — neither case
is evaluated by any theorem below.  Fuel bounds the recursion; every
step consumes at least one character, so `length + 1` fuel suffices. -/
def tokenize : Nat → List Char → Except PyExc (List CalcTok)
  | 0, _ => Except.error PyExc.syntaxErr
  | _, [] => Except.ok []
  | Nat.succ fuel, c :: cs =>
      if c = ' ' then tokenize fuel cs
      else if c.isDigit then
        let p := readDigits cs (digitVal c)
        match tokenize fuel p.2 with
        | Except.error e => Except.error e
        | Except.ok ts => Except.ok (CalcTok.num p.1 :: ts)
      else if c = '+' then (tokenize fuel cs).map (fun ts => CalcTok.plus :: ts)
      else if c = '-' then (tokenize fuel cs).map (fun ts => CalcTok.minus :: ts)
      else if c = '/' then (tokenize fuel cs).map (fun ts => CalcTok.slash :: ts)
      else if c = '%' then (tokenize fuel cs).map (fun ts => CalcTok.percent :: ts)
      else if c = '(' then (tokenize fuel cs).map (fun ts => CalcTok.lpar :: ts)
      else if c = ')' then (tokenize fuel cs).map (fun ts => CalcTok.rpar :: ts)
      else if c = '*' then
        match cs with
        | '*' :: cs2 => (tokenize fuel cs2).map (fun ts => CalcTok.dstar :: ts)
        | _ => (tokenize fuel cs).map (fun ts => CalcTok.star :: ts)
      else Except.error PyExc.syntaxErr

/-- Abstract syntax of the arithmetic expressions.  Mirrors Python's
grammar levels: `+`/`-` < `*`/`/`/`%` < unary `-` < `**` < atoms. -/
inductive CalcExpr where
  | lit (n : Nat)
  | neg (e : CalcExpr)
  | add (a b : CalcExpr)
  | sub (a b : CalcExpr)
  | mul (a b : CalcExpr)
  | div (a b : CalcExpr)
  | mod (a b : CalcExpr)
  | pow (a b : CalcExpr)
deriving Repr

mutual

def parseSum : Nat → List CalcTok → Except PyExc (CalcExpr × List CalcTok)
  | 0, _ => Except.error PyExc.syntaxErr
  | Nat.succ fuel, ts =>
      match parseTerm fuel ts with
      | Except.error e => Except.error e
      | Except.ok (lhs, rest) => parseSumTail fuel lhs rest

def parseSumTail : Nat → CalcExpr → List CalcTok → Except PyExc (CalcExpr × List CalcTok)
  | 0, _, _ => Except.error PyExc.syntaxErr
  | Nat.succ fuel, lhs, ts =>
      match ts with
      | CalcTok.plus :: rest =>
          match parseTerm fuel rest with
          | Except.error e => Except.error e
          | Except.ok (rhs, rest2) => parseSumTail fuel (CalcExpr.add lhs rhs) rest2
      | CalcTok.minus :: rest =>
          match parseTerm fuel rest with
          | Except.error e => Except.error e
          | Except.ok (rhs, rest2) => parseSumTail fuel (CalcExpr.sub lhs rhs) rest2
      | _ => Except.ok (lhs, ts)

def parseTerm : Nat → List CalcTok → Except PyExc (CalcExpr × List CalcTok)
  | 0, _ => Except.error PyExc.syntaxErr
  | Nat.succ fuel, ts =>
      match parseUnary fuel ts with
      | Except.error e => Except.error e
      | Except.ok (lhs, rest) => parseTermTail fuel lhs rest

def parseTermTail : Nat → CalcExpr → List CalcTok → Except PyExc (CalcExpr × List CalcTok)
  | 0, _, _ => Except.error PyExc.syntaxErr
  | Nat.succ fuel, lhs, ts =>
      match ts with
      | CalcTok.star :: rest =>
          match parseUnary fuel rest with
          | Except.error e => Except.error e
          | Except.ok (rhs, rest2) => parseTermTail fuel (CalcExpr.mul lhs rhs) rest2
      | CalcTok.slash :: rest =>
          match parseUnary fuel rest with
          | Except.error e => Except.error e
          | Except.ok (rhs, rest2) => parseTermTail fuel (CalcExpr.div lhs rhs) rest2
      | CalcTok.percent :: rest =>
          match parseUnary fuel rest with
          | Except.error e => Except.error e
          | Except.ok (rhs, rest2) => parseTermTail fuel (CalcExpr.mod lhs rhs) rest2
      | _ => Except.ok (lhs, ts)

def parseUnary : Nat → List CalcTok → Except PyExc (CalcExpr × List CalcTok)
  | 0, _ => Except.error PyExc.syntaxErr
  | Nat.succ fuel, ts =>
      match ts with
      | CalcTok.minus :: rest =>
          match parseUnary fuel rest with
          | Except.error e => Except.error e
          | Except.ok (e, rest2) => Except.ok (CalcExpr.neg e, rest2)
      | CalcTok.plus :: rest => parseUnary fuel rest
      | _ => parsePow fuel ts

def parsePow : Nat → List CalcTok → Except PyExc (CalcExpr × List CalcTok)
  | 0, _ => Except.error PyExc.syntaxErr
  | Nat.succ fuel, ts =>
      match parseAtom fuel ts with
      | Except.error e => Except.error e
      | Except.ok (a, rest) =>
          match rest with
          | CalcTok.dstar :: rest2 =>
              match parseUnary fuel rest2 with
              | Except.error e => Except.error e
              | Except.ok (b, rest3) => Except.ok (CalcExpr.pow a b, rest3)
          | _ => Except.ok (a, rest)

def parseAtom : Nat → List CalcTok → Except PyExc (CalcExpr × List CalcTok)
  | 0, _ => Except.error PyExc.syntaxErr
  | Nat.succ fuel, ts =>
      match ts with
      | CalcTok.num n :: rest => Except.ok (CalcExpr.lit n, rest)
      | CalcTok.lpar :: rest =>
          match parseSum fuel rest with
          | Except.error e => Except.error e
          | Except.ok (e, rest2) =>
              match rest2 with
              | CalcTok.rpar :: rest3 => Except.ok (e, rest3)
              | _ => Except.error PyExc.syntaxErr
      | _ => Except.error PyExc.syntaxErr

end

/-- Evaluate an expression.  Operands are evaluated left to right, as in
Python, so the leftmost failing operation determines the exception. -/
def evalExpr : CalcExpr → Except PyExc PyVal
  | CalcExpr.lit n => Except.ok (PyVal.vint n)
  | CalcExpr.neg e =>
      match evalExpr e with
      | Except.error ex => Except.error ex
      | Except.ok v => Except.ok (pyNeg v)
  | CalcExpr.add a b =>
      match evalExpr a with
      | Except.error ex => Except.error ex
      | Except.ok va =>
          match evalExpr b with
          | Except.error ex => Except.error ex
          | Except.ok vb => Except.ok (pyAdd va vb)
  | CalcExpr.sub a b =>
      match evalExpr a with
      | Except.error ex => Except.error ex
      | Except.ok va =>
          match evalExpr b with
          | Except.error ex => Except.error ex
          | Except.ok vb => Except.ok (pySub va vb)
  | CalcExpr.mul a b =>
      match evalExpr a with
      | Except.error ex => Except.error ex
      | Except.ok va =>
          match evalExpr b with
          | Except.error ex => Except.error ex
          | Except.ok vb => Except.ok (pyMul va vb)
  | CalcExpr.div a b =>
      match evalExpr a with
      | Except.error ex => Except.error ex
      | Except.ok va =>
          match evalExpr b with
          | Except.error ex => Except.error ex
          | Except.ok vb => pyDiv va vb
  | CalcExpr.mod a b =>
      match evalExpr a with
      | Except.error ex => Except.error ex
      | Except.ok va =>
          match evalExpr b with
          | Except.error ex => Except.error ex
          | Except.ok vb => pyMod va vb
  | CalcExpr.pow a b =>
      match evalExpr a with
      | Except.error ex => Except.error ex
      | Except.ok va =>
          match evalExpr b with
          | Except.error ex => Except.error ex
          | Except.ok vb => pyPow va vb

/-- Embedding of `eval(expression, \x7b"__builtins__": \x7b\x7d\x7d, \x7b\x7d)` on an
arithmetic expression: tokenize, parse (the whole token list must be
consumed), evaluate. -/
def pyEval (s : String) : Except PyExc PyVal :=
  match tokenize (s.toList.length + 1) s.toList with
  | Except.error e => Except.error e
  | Except.ok ts =>
      match parseSum (8 * (ts.length + 1)) ts with
      | Except.error e => Except.error e
      | Except.ok (e, rest) =>
          if rest = [] then evalExpr e else Except.error PyExc.syntaxErr

/-- The character allow-list of `calculate`
(`tools.py` line 52): `set("0123456789+-*/().** ")`.
Membership in the Python set equals membership in the string. -/
def allowedChars : List Char := "0123456789+-*/().** ".toList

/-- The tool `calculate` from `src/apps/03-interactive-chat-trich/tools.py`
lines 50-60, instrumented with a flag recording whether `eval` was
invoked.  The character check runs first and returns the error string
without evaluating; otherwise `eval` runs and exceptions become
"计算错误：{e}". -/
def calculateTrace (expression : String) : String × Bool :=
  if expression.toList.all (fun c => decide (c ∈ allowedChars)) then
    match pyEval expression with
    | Except.ok v => (pyRepr v, true)
    | Except.error e => ("计算错误：" ++ pyExcStr e, true)
  else ("错误：表达式包含不允许的字符", false)

def calculate (expression : String) : String := (calculateTrace expression).1

/-- The tool `calculator` from `src/libs/m-tools/src/m_tools/common.py`
lines 33-51, instrumented like `calculateTrace`.  There is no character
check: `eval` always runs, and exceptions become "计算错误: {e}". -/
def calculatorTrace (expression : String) : String × Bool :=
  match pyEval expression with
  | Except.ok v => ("计算结果: " ++ expression ++ " = " ++ pyRepr v, true)
  | Except.error e => ("计算错误: " ++ pyExcStr e, true)

def calculator (expression : String) : String := (calculatorTrace expression).1

/-- The tool `calc` from `src/apps/app4/main.py` lines 19-27 (`calc` is a Lean
keyword, hence the name).  No character check; `eval` runs with the
`math` names bound — identifiers are not modelled (see `tokenize`), and
no theorem uses an input containing one. -/
def app4Calc (expression : String) : String :=
  match pyEval expression with
  | Except.ok v => pyRepr v
  | Except.error e => "计算出错: " ++ pyExcStr e

/- ===================================================================
   Part 2: the session/history store.

   Source: `src/apps/app6/session.py`, class `Session`
   (lines 12-44 for the fields, the two append methods and
   `_trim_history`).
   =================================================================== -/

/-- A role-tagged message (`HumanMessage` / `AIMessage` of the session
store; content is the text). -/
inductive ChatMsg where
  | human (content : String)
  | ai (content : String)
deriving DecidableEq, Repr

/-- Python list slice `l[-k:]` for a non-negative `k`.  CPython treats
`-0` as `0`, so `k = 0` yields the whole list (not the empty one); for
`0 < k` it yields the last `min k (length l)` elements. -/
def pyTailSlice (k : Nat) (l : List ChatMsg) : List ChatMsg :=
  if k = 0 then l else l.drop (l.length - k)

/-- The `Session` dataclass: `history` plus the configured
`max_history` (source default 50). -/
structure Session where
  history : List ChatMsg
  max_history : Nat
deriving Repr

/-- Method `Session._trim_history` (session.py lines 40-44):
`if len(self.history) > self.max_history: self.history = self.history[-self.max_history:]`. -/
def Session.trim_history (s : Session) : Session :=
  if s.history.length > s.max_history then
    { s with history := pyTailSlice s.max_history s.history }
  else s

/-- Method `Session.add_user_message` (lines 26-29): append then trim. -/
def Session.add_user_message (s : Session) (content : String) : Session :=
  Session.trim_history { s with history := s.history ++ [ChatMsg.human content] }

/-- Method `Session.add_assistant_message` (lines 31-34): append then trim. -/
def Session.add_assistant_message (s : Session) (content : String) : Session :=
  Session.trim_history { s with history := s.history ++ [ChatMsg.ai content] }

/-- One append step, dispatching on the message role; both methods
append then call `_trim_history`, so the step is uniform. -/
def Session.appendMsg (s : Session) (m : ChatMsg) : Session :=
  match m with
  | ChatMsg.human c => s.add_user_message c
  | ChatMsg.ai c => s.add_assistant_message c

/- ===================================================================
   Part 3: the asynchronous UI output buffer.

   Source: `src/apps/app6/ui.py`, class `AsyncChatUI`
   (`add_pending_output` lines 73-75, `flush_pending_outputs`
   lines 77-84, `print_user` / `print_assistant` lines 41-52).
   =================================================================== -/

/-- One buffered output item: the `(type, content, tool_name)` triple
appended by `add_pending_output`. -/
structure OutputItem where
  otype : String
  content : String
  tool_name : Option String
deriving DecidableEq, Repr

/-- The console line an item produces when flushed: `print_user` for
type "user", `print_assistant` for type "assistant", nothing for any
other type (the source's if/elif chain prints nothing for them). -/
def renderOutput (it : OutputItem) : Option String :=
  if it.otype = "user" then some ("用户: " ++ it.content)
  else if it.otype = "assistant" then
    some (match it.tool_name with
          | some t => "助手: [" ++ t ++ "] " ++ it.content
          | none => "助手: " ++ it.content)
  else none

/-- The UI state relevant to output: the pending buffer and the lines
already printed to the console. -/
structure UIOutState where
  pending_outputs : List OutputItem
  displayed : List String
deriving DecidableEq, Repr

/-- Method `AsyncChatUI.add_pending_output`: append one item to the buffer. -/
def add_pending_output (st : UIOutState) (it : OutputItem) : UIOutState :=
  { st with pending_outputs := st.pending_outputs ++ [it] }

/-- Method `AsyncChatUI.flush_pending_outputs`: print every buffered item in
order, then `self.pending_outputs.clear()`. -/
def flush_pending_outputs (st : UIOutState) : UIOutState :=
  { pending_outputs := [],
    displayed := st.displayed ++ st.pending_outputs.filterMap renderOutput }

/- ===================================================================
   Part 4: the double-interrupt handler.

   Source: `src/apps/app6/ui.py`, the `Keys.ControlC` binding inside
   `AsyncChatUI.get_input_async` (lines 129-146); `app5/ui.py`
   lines 94-113 is the same logic with a closure variable instead of a
   field.  Timestamps (`time.time()`) are modelled as rationals.
   =================================================================== -/

/-- The state the Ctrl+C binding reads and writes:
`self.last_ctrl_c_time` (initially 0), `self.should_exit`, the input
buffer text, and the hint line. -/
structure InterruptState where
  last_ctrl_c_time : Rat
  should_exit : Bool
  buffer_text : String
  hint : String
deriving Repr

def retryHint : String := " ^C (再按一次退出)"

/-- The Ctrl+C handler at timestamp `t`: a second interrupt strictly
within 1 second of the recorded one sets `should_exit` (the
application then exits and `get_input_async` returns `None`);
otherwise the time is recorded, the buffer reset and the hint shown. -/
def on_ctrl_c (t : Rat) (st : InterruptState) : InterruptState :=
  if t - st.last_ctrl_c_time < 1 then
    { st with should_exit := true }
  else
    { st with last_ctrl_c_time := t, hint := retryHint, buffer_text := "" }

/- ===================================================================
   Part 5: history order under the asynchronous interactive loop.

   Source: `src/apps/app6/main.py`, interactive loop of `async_main`
   (lines 177-241): `history.append(HumanMessage(...))` runs
   synchronously at submission (line 187), and each background task
   `process()` appends exactly one `AIMessage` when it completes (every
   branch of lines 192-227, errors included, appends exactly one).

   The single-threaded event loop is modelled by schedules of events:
   `submit i` (the loop appends input `i` and creates task `i`) and
   `complete i` (task `i` reaches its `history.append(AIMessage(...))`).
   A schedule is valid when submissions occur in order 0..N-1, every
   task completes exactly once, and a task completes only after its
   submission — exactly the orderings the `asyncio` loop allows.  The
   piped mode (`AsyncChatSession.process_input` followed by
   `wait_all_pending` after every input, lines 150-161) corresponds to
   the particular schedule `pipeSchedule`.
   =================================================================== -/

/-- An event observed by the shared `history` list: a submission of the
`i`-th user message or the completion of the `i`-th reply task. -/
inductive LoopEvent where
  | submit (i : Nat)
  | complete (i : Nat)
deriving DecidableEq, Repr

/-- The message a single event appends to `history`.  User message `i`
and its reply are tagged with the submission index. -/
def eventMsg : LoopEvent → ChatMsg
  | LoopEvent.submit i => ChatMsg.human ("输入" ++ toString i)
  | LoopEvent.complete i => ChatMsg.ai ("回复" ++ toString i)

/-- Run a schedule: each event appends its message to `history`. -/
def runSchedule (es : List LoopEvent) : List ChatMsg :=
  es.foldl (fun h e => h ++ [eventMsg e]) []

def submitIdx : LoopEvent → Option Nat
  | LoopEvent.submit i => some i
  | LoopEvent.complete _ => none

def completeIdx : LoopEvent → Option Nat
  | LoopEvent.complete i => some i
  | LoopEvent.submit _ => none

/-- Index of the first occurrence of an event in a schedule (length of
the list when absent). -/
def firstIdx (e : LoopEvent) : List LoopEvent → Nat
  | [] => 0
  | x :: xs => if x = e then 0 else firstIdx e xs + 1

/-- A schedule of the loop with `N` submitted messages is valid when:
the submissions are exactly `submit 0, ..., submit (N-1)` in that order
(the loop body runs sequentially), each task completes exactly once
(`N` completions and every index among them), and no task completes
before its submission (`create_task` happens at submission). -/
def ValidSchedule (N : Nat) (es : List LoopEvent) : Prop :=
  es.filterMap submitIdx = List.range N ∧
  (es.filterMap completeIdx).length = N ∧
  (∀ i, i < N → i ∈ es.filterMap completeIdx) ∧
  (∀ i, i < N → firstIdx (LoopEvent.submit i) es < firstIdx (LoopEvent.complete i) es)

instance (N : Nat) (es : List LoopEvent) : Decidable (ValidSchedule N es) := by
  unfold ValidSchedule
  infer_instance

/-- The submission indices of the user messages of a history, in
order. -/
def userIdxs (h : List ChatMsg) : List String :=
  h.filterMap (fun m => match m with
    | ChatMsg.human c => some c
    | ChatMsg.ai _ => none)

/-- The reply texts of a history, in order. -/
def replyIdxs (h : List ChatMsg) : List String :=
  h.filterMap (fun m => match m with
    | ChatMsg.ai c => some c
    | ChatMsg.human _ => none)

/-- The schedule the piped mode produces: every task is awaited to
completion before the next input is processed. -/
def pipeSchedule (N : Nat) : List LoopEvent :=
  (List.range N).flatMap (fun i => [LoopEvent.submit i, LoopEvent.complete i])

/- ===================================================================
   Part 6: shutdown behaviour of the interactive loop.

   Source: `src/apps/app6/main.py`, `async_main` lines 177-241.
   Control flow per iteration:
     1. `await ui.get_input_async()` — this call first flushes the
        pending-output buffer (ui.py line 105), then suspends; any
        number of background tasks may complete while it runs, each
        buffering one output item;
     2. `if user_input is None: break` — double Ctrl+C or Ctrl+D:
        the loop exits HERE, without touching `pending_tasks`;
     3. submit: echo the user message, flush again (lines 184-185,
        clearing the buffer), append to history, `create_task`,
        append the task to `pending_tasks`;
     4. `if ui.should_exit:` (set by a previously completed task whose
        routed action was "end") `for task in pending_tasks: await
        task` then break — every task is awaited; the outputs the
        drained tasks buffer are never flushed (no flush after the
        loop).
   One iteration is abstracted by how many tasks completed during step
   1 and what steps 2-4 observed.
   =================================================================== -/

/-- What one iteration of the `while True` loop observed:
`completedDuringInput` tasks finished while the input widget was
running; `outcome` is `none` when `get_input_async` returned `None`
(double interrupt / end of input) and `some flag` when a message was
submitted, with `flag` the value of `ui.should_exit` at the line-238
check. -/
structure LoopIterObs where
  completedDuringInput : Nat
  outcome : Option Bool
deriving DecidableEq, Repr

/-- How `async_main` exited. -/
structure MainExitInfo where
  viaEndAction : Bool
  submitted : Nat
  unawaited : Nat
  unflushedOutputs : Nat
deriving DecidableEq, Repr

/-- The interactive loop of `async_main`, as a function of the observed
iterations.  State: `outstanding` = tasks created and not yet
completed, `submitted` = tasks created.  Returns `none` when the
script ends with the loop still running.  On `outcome = none` the loop
breaks at line 181: the tasks that completed during the final input
call have buffered outputs nobody flushes, and the still-outstanding
tasks are neither awaited nor flushed.  On `outcome = some true` the
drain loop of lines 239-240 awaits every task; the tasks that were
still outstanding complete during the drain and buffer one output
each, which is never flushed (the loop breaks immediately after). -/
def asyncMainLoop : List LoopIterObs → Nat → Nat → Option MainExitInfo
  | [], _, _ => none
  | it :: rest, outstanding, submitted =>
      let stillOut := outstanding - it.completedDuringInput
      match it.outcome with
      | none =>
          some { viaEndAction := false, submitted := submitted,
                 unawaited := stillOut,
                 unflushedOutputs := it.completedDuringInput }
      | some exitFlag =>
          if exitFlag then
            some { viaEndAction := true, submitted := submitted + 1,
                   unawaited := 0,
                   unflushedOutputs := stillOut + 1 }
          else
            asyncMainLoop rest (stillOut + 1) (submitted + 1)

/-- A script is well formed when no iteration claims more completions
than there are outstanding tasks. -/
def WFScript : List LoopIterObs → Nat → Prop
  | [], _ => True
  | it :: rest, outstanding =>
      it.completedDuringInput ≤ outstanding ∧
      WFScript rest (outstanding - it.completedDuringInput + 1)

instance wfScriptDec : (l : List LoopIterObs) → (n : Nat) → Decidable (WFScript l n)
  | [], _ => Decidable.isTrue trivial
  | it :: rest, n =>
      @instDecidableAnd _ _ (Nat.decLe _ _)
        (wfScriptDec rest (n - it.completedDuringInput + 1))

/- ===================================================================
   Part 7: reply computation and chat-client failure handling.

   Source: `src/apps/app6/main.py`, the body of `process()`
   (lines 190-230); `src/apps/app5/main.py` lines 340-363 is the same
   per-action logic, synchronous and with the same strings.  The chat
   client call (`llm.ainvoke`) is abstracted as its outcome: a reply
   text or a raised exception (rendered by `f"...{exc}"` as a string).
   =================================================================== -/

/-- The routed action of one turn (result of `route_intent_async`). -/
inductive RouteAction where
  | time
  | endChat
  | summary
  | chat
deriving DecidableEq, Repr

/-- State of one turn after the reply step. -/
structure TurnState where
  history : List ChatMsg
  outputs : List OutputItem
  should_exit : Bool
deriving Repr

/-- The reply text each branch computes.  `toolTime` stands for the
`get_current_time` tool result and `reason` for the user input passed
to `end_chat`; in the `summary`/`chat` branches the `try/except` around
`llm.ainvoke` substitutes the error text for the reply. -/
def replyText (action : RouteAction) (toolTime reason : String)
    (llmRes : Except String String) : String :=
  match action with
  | RouteAction.time => "当前时间：" ++ toolTime
  | RouteAction.endChat => "会话结束。原因：" ++ reason ++ "。再见！"
  | RouteAction.summary =>
      match llmRes with
      | Except.ok r => r
      | Except.error e => "总结失败：" ++ e
  | RouteAction.chat =>
      match llmRes with
      | Except.ok r => r
      | Except.error e => "回答失败：" ++ e

/-- The tool tag each branch passes to `add_pending_output`. -/
def replyToolTag : RouteAction → String
  | RouteAction.time => "get_current_time"
  | RouteAction.endChat => "end_chat"
  | RouteAction.summary => "LLM:summary"
  | RouteAction.chat => "LLM:chat"

/-- One reply step of `process()`: append the reply to `history`,
buffer one assistant output item, and set `should_exit` on the end
branch.  The result is wrapped in `Except`: an uncaught exception in
the body would surface as `Except.error`, and the theorem for C7 shows
the step always returns `Except.ok` — the `try/except` blocks confine
chat-client failures to the reply text. -/
def processStep (action : RouteAction) (toolTime reason : String)
    (llmRes : Except String String) (st : TurnState) : Except String TurnState :=
  let reply := replyText action toolTime reason llmRes
  Except.ok
    { history := st.history ++ [ChatMsg.ai reply],
      outputs := st.outputs ++
        [{ otype := "assistant", content := reply,
           tool_name := some (replyToolTag action) }],
      should_exit := st.should_exit || (action = RouteAction.endChat) }

/- ===================================================================
   Part 8: the intent router.

   Source: `src/apps/app6/router.py`, `route_intent_async`
   (lines 44-94).  The chat-client call is abstracted as its outcome
   (`Except.error` for a raised transport/API exception).  The
   remaining pipeline is embedded directly:
     - `re.search(r'\x7b[^\x7d]+\x7d', content)`: the leftmost
       occurrence of `\x7b`, at least one non-`\x7d` character, then
       the first `\x7d`;
     - `json.loads` on the extracted chunk, modelled for flat objects
       with string / integer / boolean / null values (the chunk can
       contain no nested object since it contains no inner `\x7d`).
       JSON escapes and non-integer numbers are not modelled (the
       parse fails on them, as it does on any malformed text); no
       theorem exercises those inputs;
     - `data.get("action", "chat")`, the membership test in the closed
       action set, the keyword fallback and the warning print.
   The returned pair is (action, warned): `warned` is true exactly when
   the source prints the "警告: LLM 路由失败，使用关键词兜底！" line.
   =================================================================== -/

/-- A JSON value as far as the router's replies need: strings,
integers, booleans, null. -/
inductive Jv where
  | jstr (s : String)
  | jint (n : Int)
  | jtrue
  | jfalse
  | jnull
deriving DecidableEq, Repr

/-- Characters before the first `\x7d`, or `none` when there is no
`\x7d` in the list. -/
def beforeBrace : List Char → Option (List Char)
  | [] => none
  | c :: cs =>
      if c = '}' then some []
      else (beforeBrace cs).map (fun m => c :: m)

/-- Leftmost match of `\x7b[^\x7d]+\x7d`: scan for a `\x7b` from which
at least one non-`\x7d` character precedes the next `\x7d`; a `\x7b`
immediately followed by `\x7d` is not a match and scanning resumes at
the next position, as the regex engine does. -/
def findJsonChunk : List Char → Option (List Char)
  | [] => none
  | c :: cs =>
      if c = '{' then
        match beforeBrace cs with
        | some mid => if mid = [] then findJsonChunk cs else some ('{' :: mid ++ ['}'])
        | none => findJsonChunk cs
      else findJsonChunk cs

def isJsonWs (c : Char) : Bool :=
  c = ' ' || c = '\t' || c = '\n' || c = '\r'

/-- Python `str.strip()`: remove leading and trailing whitespace
(modelled at the character-list level). -/
def pyStrip (cs : List Char) : List Char :=
  ((cs.dropWhile isJsonWs).reverse.dropWhile isJsonWs).reverse

def skipJsonWs (cs : List Char) : List Char := cs.dropWhile isJsonWs

/-- Parse a JSON string body after the opening quote; no escape
support (a backslash makes the parse fail — flagged deviation, see the
part header). -/
def parseJsonStr : List Char → Option (String × List Char)
  | [] => none
  | c :: cs =>
      if c = '"' then some ("", cs)
      else if c = '\\' then none
      else (parseJsonStr cs).map (fun p => (String.mk (c :: p.1.toList), p.2))

/-- Parse an optionally signed decimal integer. -/
def parseJsonInt (cs : List Char) : Option (Int × List Char) :=
  match cs with
  | '-' :: c :: rest =>
      if c.isDigit then
        let p := readDigits rest (digitVal c)
        some (-(p.1 : Int), p.2)
      else none
  | c :: rest =>
      if c.isDigit then
        let p := readDigits rest (digitVal c)
        some ((p.1 : Int), p.2)
      else none
  | [] => none

/-- Parse one JSON value (string, integer, true/false/null). -/
def parseJsonVal (cs : List Char) : Option (Jv × List Char) :=
  match cs with
  | '"' :: rest => (parseJsonStr rest).map (fun p => (Jv.jstr p.1, p.2))
  | 't' :: 'r' :: 'u' :: 'e' :: rest => some (Jv.jtrue, rest)
  | 'f' :: 'a' :: 'l' :: 's' :: 'e' :: rest => some (Jv.jfalse, rest)
  | 'n' :: 'u' :: 'l' :: 'l' :: rest => some (Jv.jnull, rest)
  | _ => (parseJsonInt cs).map (fun p => (Jv.jint p.1, p.2))

/-- Parse the members of an object after its opening brace: either the
closing `\x7d` at once, or comma-separated `"key": value` pairs.  Fuel
bounds the recursion (each pair consumes at least one character). -/
def parseJsonPairs : Nat → List Char → Option (List (String × Jv))
  | 0, _ => none
  | Nat.succ fuel, cs =>
      match skipJsonWs cs with
      | '"' :: rest =>
          match parseJsonStr rest with
          | none => none
          | some (key, rest2) =>
              match skipJsonWs rest2 with
              | ':' :: rest3 =>
                  match parseJsonVal (skipJsonWs rest3) with
                  | none => none
                  | some (v, rest4) =>
                      match skipJsonWs rest4 with
                      | ',' :: rest5 =>
                          (parseJsonPairs fuel rest5).map (fun ps => (key, v) :: ps)
                      | '}' :: rest6 =>
                          if skipJsonWs rest6 = [] then some [(key, v)] else none
                      | _ => none
              | _ => none
      | _ => none

/-- Python `json.loads` on a chunk, which must be a single flat object with
nothing but whitespace around it (the chunks `findJsonChunk` returns
end at their final `\x7d`). -/
def jsonLoadsObj (cs : List Char) : Option (List (String × Jv)) :=
  match skipJsonWs cs with
  | '{' :: rest =>
      match skipJsonWs rest with
      | '}' :: rest2 => if skipJsonWs rest2 = [] then some [] else none
      | _ => parseJsonPairs (cs.length + 1) rest
  | _ => none

/-- Python `dict.get(key, default)`; with duplicate keys `json.loads` keeps
the last one, hence the reversed lookup. -/
def jsonGet (ps : List (String × Jv)) (key : String) (dflt : Jv) : Jv :=
  match ps.reverse.find? (fun p => p.1 = key) with
  | some p => p.2
  | none => dflt

def routerActions : List String := ["time", "chat", "summary", "end"]

/-- Lines 69-78 of router.py: strip the response, extract the first
brace chunk, parse it, read `action` with default "chat", and accept
it when it lies in the closed set.  `none` means the source falls
through to the keyword fallback (no chunk, a `json.loads` failure —
which raises and is caught by the enclosing `except` — a non-string
action, or an action outside the set). -/
def routeFromContent (content : String) : Option String :=
  match findJsonChunk (pyStrip content.toList) with
  | none => none
  | some chunk =>
      match jsonLoadsObj chunk with
      | none => none
      | some ps =>
          match jsonGet ps "action" (Jv.jstr "chat") with
          | Jv.jstr a => if a ∈ routerActions then some a else none
          | _ => none

def listStartsWith : List Char → List Char → Bool
  | [], _ => true
  | _ :: _, [] => false
  | a :: as, b :: bs => a = b && listStartsWith as bs

/-- Python's `needle in hay` on strings: contiguous substring test. -/
def listContainsSub (needle hay : List Char) : Bool :=
  match hay with
  | [] => needle.isEmpty
  | _ :: hs => listStartsWith needle hay || listContainsSub needle hs

/-- Lines 83-90 of router.py: the keyword fallback — exact match of
the whole input for "time", substring match on the lowercased input
for the summary and end keyword lists, default "chat".  `user_text.lower()`
is modelled with the ASCII `Char.toLower` per character (Python also
lowercases non-ASCII cased letters; the keyword lists contain only
Chinese characters and lowercase ASCII, so the two agree on every
comparison the function makes). -/
def keywordFallback (userText : String) : String :=
  let lower := userText.toList.map Char.toLower
  if userText ∈ ["现在几点", "几点了", "现在时间"] then "time"
  else if ["总结对话", "概括一下"].any (fun k => listContainsSub k.toList lower) then "summary"
  else if ["结束聊天", "退出", "bye", "再见"].any (fun k => listContainsSub k.toList lower) then "end"
  else "chat"

/-- The function `route_intent_async` (router.py lines 44-94) as a function of the
chat-client outcome and the user text; the boolean records whether the
fallback warning was printed. -/
def route_intent_async (llmRes : Except String String) (userText : String) :
    String × Bool :=
  match llmRes with
  | Except.ok content =>
      match routeFromContent content with
      | some a => (a, false)
      | none => (keywordFallback userText, true)
  | Except.error _ => (keywordFallback userText, true)

/- ===================================================================
   Part 9: the agent tool-call loop.

   Source: `src/apps/app6/agent.py`, `Agent.chat` (lines 60-178).
   Abstractions:
     - the chat client with bound tools is an oracle mapping the
       invocation index to its outcome: a raised exception (the
       `except` at line 173) or a response with content and tool
       calls.  `tool_calls` stands for the merged `all_tool_calls`
       list (valid calls plus invalid ones whose `None` args the
       source repairs to `\x7b\x7d`; invalid calls of other shapes are
       skipped with a debug note);
     - the tool registry is a map from tool name to the tool's
       outcome on this call (`none` = name not in `tools_map`;
       `Except.error` = `tool.invoke` raised).  Tool arguments are
       abstracted into that outcome.
   =================================================================== -/

structure ToolCallRec where
  name : String
  tid : String
deriving DecidableEq, Repr

structure LLMResp where
  content : String
  tool_calls : List ToolCallRec
deriving DecidableEq, Repr

/-- Messages of the agent conversation (`SystemMessage`,
`HumanMessage`, `AIMessage` with tool calls, `ToolMessage`). -/
inductive AgentMsg where
  | sys (content : String)
  | human (content : String)
  | ai (content : String) (tool_calls : List ToolCallRec)
  | tool (content : String) (tool_call_id : String) (name : String)
deriving DecidableEq, Repr

/-- Lines 134-169: execute one tool call and build its `ToolMessage`.
A known tool that raises yields the "工具执行错误：" message; an
unknown name yields the "未知工具：" message; both are fed back into
the conversation instead of escaping. -/
def execToolCall (tools : String → Option (Except String String))
    (tc : ToolCallRec) : AgentMsg :=
  match tools tc.name with
  | some (Except.ok r) => AgentMsg.tool r tc.tid tc.name
  | some (Except.error e) => AgentMsg.tool ("工具执行错误：" ++ e) tc.tid tc.name
  | none => AgentMsg.tool ("未知工具：" ++ tc.name) tc.tid tc.name

def agentApology : String := "抱歉，工具调用次数过多，请简化您的问题。"

/-- The `for iteration in range(max_iterations)` loop of `Agent.chat`
(lines 79-178).  `fuel` is the remaining iterations (5 at the top
call), `k` the number of chat-client invocations made so far.  Returns
the reply and the total number of invocations. -/
def agentLoop (tools : String → Option (Except String String))
    (responses : Nat → Except String LLMResp) :
    Nat → Nat → List AgentMsg → String × Nat
  | 0, k, _ => (agentApology, k)
  | Nat.succ fuel, k, msgs =>
      match responses k with
      | Except.error e => ("抱歉，处理请求时出错：" ++ e, k + 1)
      | Except.ok resp =>
          if resp.tool_calls = [] then (resp.content, k + 1)
          else
            agentLoop tools responses fuel (k + 1)
              (msgs ++ AgentMsg.ai resp.content resp.tool_calls ::
                resp.tool_calls.map (execToolCall tools))

/-- Method `Agent.chat`: build the message list (system prompt, history, the
user input) and run the loop with `max_iterations = 5`. -/
def Agent_chat (tools : String → Option (Except String String))
    (responses : Nat → Except String LLMResp)
    (systemPrompt userInput : String) (history : List AgentMsg) : String × Nat :=
  agentLoop tools responses 5 0
    (AgentMsg.sys systemPrompt :: history ++ [AgentMsg.human userInput])

/- ===================================================================
   Helper lemmas (shared; no claim theorem is used by any of them).
   =================================================================== -/

theorem foldl_append_eq_map (es : List LoopEvent) :
    ∀ acc : List ChatMsg,
      es.foldl (fun h e => h ++ [eventMsg e]) acc = acc ++ es.map eventMsg := by
  induction es with
  | nil => intro acc; simp
  | cons e rest ih => intro acc; simp [List.foldl_cons, ih]

theorem runSchedule_eq_map (es : List LoopEvent) :
    runSchedule es = es.map eventMsg := by
  unfold runSchedule
  simpa using foldl_append_eq_map es []

theorem userIdxs_run (es : List LoopEvent) :
    userIdxs (runSchedule es) =
      (es.filterMap submitIdx).map (fun i => "输入" ++ toString i) := by
  rw [runSchedule_eq_map]
  induction es with
  | nil => rfl
  | cons e rest ih =>
      cases e with
      | submit i => simp [userIdxs, eventMsg, submitIdx] at ih ⊢; exact ih
      | complete i => simp [userIdxs, eventMsg, submitIdx] at ih ⊢; exact ih

theorem replyIdxs_run (es : List LoopEvent) :
    replyIdxs (runSchedule es) =
      (es.filterMap completeIdx).map (fun i => "回复" ++ toString i) := by
  rw [runSchedule_eq_map]
  induction es with
  | nil => rfl
  | cons e rest ih =>
      cases e with
      | submit i => simp [replyIdxs, eventMsg, completeIdx] at ih ⊢; exact ih
      | complete i => simp [replyIdxs, eventMsg, completeIdx] at ih ⊢; exact ih

/- ===================================================================
   Claim theorems.
   =================================================================== -/

/-- C3 (counterexample).  The claim states that every calculator-tool
input containing a character outside the allow-list is rejected with an
error string and never evaluated.  The `m_tools.calculator` variant has
no character check: the input "7%3" contains `%`, which is outside the
allow-list, yet the tool evaluates it and returns the success string
"计算结果: 7%3 = 1" (the trace flag `true` records that `eval` ran). -/
theorem C3_allowlist_counterexample :
    ('%' ∈ "7%3".toList ∧ '%' ∉ allowedChars) ∧
    calculatorTrace "7%3" = ("计算结果: 7%3 = 1", true) := by
  constructor
  · exact ⟨by decide, by decide⟩
  · rfl

/-- C3 (amended): the allow-list property holds of the `calculate`
variant (03-interactive-chat-trich/tools.py): any input containing a
character outside `set("0123456789+-*` `/().** ")` yields the error
string 错误：表达式包含不允许的字符, and `eval` is never invoked (trace
flag `false`).  The `m_tools.calculator` and app4 `calc` variants
perform no character screening. -/
theorem C3_allowlist_amended (s : String)
    (h : ∃ c ∈ s.toList, c ∉ allowedChars) :
    calculateTrace s = ("错误：表达式包含不允许的字符", false) := by
  unfold calculateTrace
  rw [if_neg]
  intro hall
  rw [List.all_eq_true] at hall
  obtain ⟨c, hc, hout⟩ := h
  exact hout (by simpa using hall c hc)

/-- Witness for C3_allowlist_amended at the input "a+1". -/
theorem C3_allowlist_amended_witness :
    calculateTrace "a+1" = ("错误：表达式包含不允许的字符", false) :=
  C3_allowlist_amended "a+1" ⟨'a', by decide, by decide⟩

/-- C5 (counterexample).  The claim states that after every append the
stored history holds at most `max_history` messages.  With
`max_history = 0` Python's trim slice `history[-0:]` is `history[0:]`,
the whole list, so a session configured with maximum 0 keeps 1 message
after one append. -/
theorem C5_trim_counterexample :
    (Session.add_user_message { history := [], max_history := 0 } "你好").history.length = 1 ∧
    ¬ (Session.add_user_message { history := [], max_history := 0 } "你好").history.length ≤ 0 := by
  constructor
  · rfl
  · decide

/-- C5 (amended): for a positive configured maximum the claim holds.
(i) A single append always leaves the last
`min (length + 1) max_history` messages: the result is exactly the
appended list with its oldest surplus dropped from the front.
(ii) Any sequence of appends starting from an empty session leaves
exactly the `max_history` most-recent messages, oldest dropped first,
relative order unchanged.  (iii) Hence the length never exceeds
`max_history`. -/
theorem C5_trim_amended :
    (∀ (s : Session) (m : ChatMsg), 1 ≤ s.max_history →
      (s.appendMsg m).history =
        (s.history ++ [m]).drop ((s.history ++ [m]).length - s.max_history)) ∧
    (∀ (mx : Nat) (ms : List ChatMsg), 1 ≤ mx →
      (ms.foldl Session.appendMsg { history := [], max_history := mx }).history =
        ms.drop (ms.length - mx)) ∧
    (∀ (mx : Nat) (ms : List ChatMsg), 1 ≤ mx →
      (ms.foldl Session.appendMsg { history := [], max_history := mx }).history.length ≤ mx) := by
  have hstep : ∀ (s : Session) (m : ChatMsg), 1 ≤ s.max_history →
      (s.appendMsg m).history =
        (s.history ++ [m]).drop ((s.history ++ [m]).length - s.max_history) := by
    intro s m hmx
    have hmono : (s.appendMsg m).history =
        (Session.trim_history { s with history := s.history ++ [m] }).history := by
      cases m <;> rfl
    rw [hmono]
    unfold Session.trim_history
    by_cases hlen : (s.history ++ [m]).length > s.max_history
    · rw [if_pos hlen]
      unfold pyTailSlice
      rw [if_neg (show ¬ s.max_history = 0 by omega)]
    · rw [if_neg hlen]
      simp only [not_lt] at hlen
      have h0 : (s.history ++ [m]).length - s.max_history = 0 := by omega
      rw [h0, List.drop_zero]
  have hmaxkeep : ∀ (s : Session) (m : ChatMsg),
      (s.appendMsg m).max_history = s.max_history := by
    intro s m
    cases m <;> simp [Session.appendMsg, Session.add_user_message,
      Session.add_assistant_message, Session.trim_history] <;> split <;> rfl
  have hfoldM : ∀ (mx : Nat) (ms : List ChatMsg),
      (ms.foldl Session.appendMsg { history := [], max_history := mx }).max_history = mx := by
    intro mx ms
    induction ms using List.reverseRecOn with
    | nil => rfl
    | append_singleton ms m ih =>
        rw [List.foldl_append, List.foldl_cons, List.foldl_nil, hmaxkeep, ih]
  have hfoldH : ∀ (mx : Nat) (ms : List ChatMsg), 1 ≤ mx →
      (ms.foldl Session.appendMsg { history := [], max_history := mx }).history =
        ms.drop (ms.length - mx) := by
    intro mx ms hmx
    induction ms using List.reverseRecOn with
    | nil => simp
    | append_singleton ms m ih =>
        rw [List.foldl_append, List.foldl_cons, List.foldl_nil]
        have hm : (ms.foldl Session.appendMsg
            { history := [], max_history := mx }).max_history = mx := hfoldM mx ms
        have h1 := hstep (ms.foldl Session.appendMsg
            { history := [], max_history := mx }) m (by rw [hm]; exact hmx)
        rw [h1, ih, hm]
        by_cases hcase : ms.length < mx
        · have e1 : ms.length - mx = 0 := by omega
          have e2 : (ms ++ [m]).length - mx = 0 := by simp; omega
          rw [e1, List.drop_zero, e2, List.drop_zero]
        · push_neg at hcase
          have hL : (ms.drop (ms.length - mx)).length = mx := by
            rw [List.length_drop]; omega
          have e1 : (ms.drop (ms.length - mx) ++ [m]).length - mx = 1 := by
            rw [List.length_append, hL]; simp
          have e2 : (ms ++ [m]).length - mx = ms.length - mx + 1 := by
            rw [List.length_append]; simp; omega
          rw [e1, e2]
          rw [List.drop_append_of_le_length (by rw [hL]; exact hmx)]
          rw [List.drop_append_of_le_length (by omega)]
          rw [List.drop_drop]
  refine ⟨hstep, hfoldH, ?_⟩
  intro mx ms hmx
  rw [hfoldH mx ms hmx]
  simp only [List.length_drop]
  omega

/-- Witness for C5_trim_amended: three appends with `max_history = 2`
keep exactly the two most-recent messages, in order. -/
theorem C5_trim_amended_witness :
    (([ChatMsg.human "a", ChatMsg.ai "b", ChatMsg.human "c"]).foldl Session.appendMsg
        { history := [], max_history := 2 }).history =
      ([ChatMsg.human "a", ChatMsg.ai "b", ChatMsg.human "c"]).drop
        ([ChatMsg.human "a", ChatMsg.ai "b", ChatMsg.human "c"].length - 2) :=
  C5_trim_amended.2.1 2 [ChatMsg.human "a", ChatMsg.ai "b", ChatMsg.human "c"] (by decide)

/-- C6 (confirmed).  Every calculator variant returns a string for
every input and never lets an exception escape: "2 + 3 * 4" evaluates
to "14" (the `m_tools` variant formats it as "计算结果: ... = 14"),
"1/0" yields each variant's error string, and in general an evaluation
error is always mapped to an error string while a successful evaluation
is rendered with `str`. -/
theorem C6_calculator_contract :
    calculate "2 + 3 * 4" = "14" ∧
    calculator "2 + 3 * 4" = "计算结果: 2 + 3 * 4 = 14" ∧
    app4Calc "2 + 3 * 4" = "14" ∧
    calculate "1/0" = "计算错误：division by zero" ∧
    calculator "1/0" = "计算错误: division by zero" ∧
    app4Calc "1/0" = "计算出错: division by zero" ∧
    (∀ s : String,
      calculate s = "错误：表达式包含不允许的字符" ∨
      (∃ e, pyEval s = Except.error e ∧ calculate s = "计算错误：" ++ pyExcStr e) ∨
      (∃ v, pyEval s = Except.ok v ∧ calculate s = pyRepr v)) ∧
    (∀ s : String,
      (∃ e, pyEval s = Except.error e ∧ calculator s = "计算错误: " ++ pyExcStr e) ∨
      (∃ v, pyEval s = Except.ok v ∧
        calculator s = "计算结果: " ++ s ++ " = " ++ pyRepr v)) := by
  refine ⟨rfl, rfl, rfl, rfl, rfl, rfl, ?_, ?_⟩
  · intro s
    unfold calculate calculateTrace
    by_cases hall : (s.toList.all fun c => decide (c ∈ allowedChars)) = true
    · rw [if_pos hall]
      cases hev : pyEval s with
      | error e => exact Or.inr (Or.inl ⟨e, rfl, rfl⟩)
      | ok v => exact Or.inr (Or.inr ⟨v, rfl, rfl⟩)
    · rw [if_neg hall]
      exact Or.inl rfl
  · intro s
    unfold calculator calculatorTrace
    cases hev : pyEval s with
    | error e => exact Or.inl ⟨e, rfl, rfl⟩
    | ok v => exact Or.inr ⟨v, rfl, rfl⟩

/-- C7 (confirmed).  A chat-client failure while computing a reply is
caught at the call site: the summary branch substitutes "总结失败：{exc}"
and the chat branch "回答失败：{exc}" as the reply, the reply is appended
to the history as the assistant message and buffered for display, and
the step never propagates the exception (for every action and client
outcome the step returns `Except.ok` with exactly one appended
assistant message). -/
theorem C7_client_error_recovery :
    ∀ (st : TurnState) (toolT reason e : String),
      (∃ st2, processStep RouteAction.summary toolT reason (Except.error e) st =
          Except.ok st2 ∧
        st2.history = st.history ++ [ChatMsg.ai ("总结失败：" ++ e)] ∧
        st2.outputs = st.outputs ++
          [{ otype := "assistant", content := "总结失败：" ++ e,
             tool_name := some "LLM:summary" }] ∧
        st2.should_exit = st.should_exit) ∧
      (∃ st2, processStep RouteAction.chat toolT reason (Except.error e) st =
          Except.ok st2 ∧
        st2.history = st.history ++ [ChatMsg.ai ("回答失败：" ++ e)] ∧
        st2.outputs = st.outputs ++
          [{ otype := "assistant", content := "回答失败：" ++ e,
             tool_name := some "LLM:chat" }] ∧
        st2.should_exit = st.should_exit) ∧
      (∀ (action : RouteAction) (llmRes : Except String String), ∃ st2,
        processStep action toolT reason llmRes st = Except.ok st2 ∧
        st2.history = st.history ++ [ChatMsg.ai (replyText action toolT reason llmRes)]) := by
  intro st toolT reason e
  refine ⟨⟨_, rfl, rfl, rfl, ?_⟩, ⟨_, rfl, rfl, rfl, ?_⟩, ?_⟩
  · simp [processStep]
  · simp [processStep]
  · intro action llmRes
    exact ⟨_, rfl, rfl⟩

/-- C8 (confirmed).  Flushing the pending-output buffer is idempotent:
a flush with an empty buffer changes nothing (no line is printed, the
buffer stays empty), and flushing twice equals flushing once. -/
theorem C8_flush_idempotent :
    (∀ st : UIOutState, st.pending_outputs = [] → flush_pending_outputs st = st) ∧
    (∀ st : UIOutState,
      flush_pending_outputs (flush_pending_outputs st) = flush_pending_outputs st) := by
  constructor
  · intro st h
    cases st with
    | mk p d =>
        simp only at h
        subst h
        simp [flush_pending_outputs]
  · intro st
    simp [flush_pending_outputs]

/-- Witness for C8_flush_idempotent: an empty buffer with one line
already on the console is left unchanged by a flush. -/
theorem C8_flush_idempotent_witness :
    flush_pending_outputs { pending_outputs := [], displayed := ["用户: 你好"] } =
      { pending_outputs := [], displayed := ["用户: 你好"] } :=
  C8_flush_idempotent.1 { pending_outputs := [], displayed := ["用户: 你好"] } rfl

/-- C9 (confirmed).  With the first interrupt at `t1` (at least one
second after the recorded time, so it is a fresh first interrupt: no
shutdown, input line cleared, hint shown, time recorded), a second
interrupt at `t2` strictly within the 1-second window sets
`should_exit` (shutdown), while a second interrupt at or beyond the
window does not shut down and is treated exactly as a fresh first
interrupt: buffer cleared, hint shown, its time recorded. -/
theorem C9_double_interrupt :
    ∀ (st : InterruptState) (t1 t2 : Rat),
      st.should_exit = false →
      1 ≤ t1 - st.last_ctrl_c_time →
      ((on_ctrl_c t1 st).should_exit = false ∧
       (on_ctrl_c t1 st).buffer_text = "" ∧
       (on_ctrl_c t1 st).hint = retryHint ∧
       (on_ctrl_c t1 st).last_ctrl_c_time = t1) ∧
      (t2 - t1 < 1 → (on_ctrl_c t2 (on_ctrl_c t1 st)).should_exit = true) ∧
      (1 ≤ t2 - t1 →
        (on_ctrl_c t2 (on_ctrl_c t1 st)).should_exit = false ∧
        (on_ctrl_c t2 (on_ctrl_c t1 st)).last_ctrl_c_time = t2 ∧
        (on_ctrl_c t2 (on_ctrl_c t1 st)).buffer_text = "" ∧
        (on_ctrl_c t2 (on_ctrl_c t1 st)).hint = retryHint) := by
  intro st t1 t2 hse h1
  have hc1 : ¬ (t1 - st.last_ctrl_c_time < 1) := by linarith
  have e1 : on_ctrl_c t1 st =
      { st with last_ctrl_c_time := t1, hint := retryHint, buffer_text := "" } := by
    unfold on_ctrl_c
    rw [if_neg hc1]
  refine ⟨?_, ?_, ?_⟩
  · rw [e1]
    exact ⟨hse, rfl, rfl, rfl⟩
  · intro h2
    rw [e1]
    unfold on_ctrl_c
    simp only
    rw [if_pos (by simpa using h2)]
  · intro h2
    rw [e1]
    unfold on_ctrl_c
    simp only
    rw [if_neg (by simp; linarith)]
    exact ⟨hse, rfl, rfl, rfl⟩

/-- Witness for C9_double_interrupt: first interrupt at t = 5 from the
initial state (recorded time 0), second at t = 11/2, half a second
later — within the window, so the second interrupt shuts down. -/
theorem C9_double_interrupt_witness :
    ((on_ctrl_c 5 ⟨0, false, "草稿", ""⟩).should_exit = false ∧
     (on_ctrl_c 5 ⟨0, false, "草稿", ""⟩).buffer_text = "" ∧
     (on_ctrl_c 5 ⟨0, false, "草稿", ""⟩).hint = retryHint ∧
     (on_ctrl_c 5 ⟨0, false, "草稿", ""⟩).last_ctrl_c_time = 5) ∧
    ((11 / 2 : Rat) - 5 < 1 →
      (on_ctrl_c (11 / 2) (on_ctrl_c 5 ⟨0, false, "草稿", ""⟩)).should_exit = true) ∧
    (1 ≤ (11 / 2 : Rat) - 5 →
      (on_ctrl_c (11 / 2) (on_ctrl_c 5 ⟨0, false, "草稿", ""⟩)).should_exit = false ∧
      (on_ctrl_c (11 / 2) (on_ctrl_c 5 ⟨0, false, "草稿", ""⟩)).last_ctrl_c_time = 11 / 2 ∧
      (on_ctrl_c (11 / 2) (on_ctrl_c 5 ⟨0, false, "草稿", ""⟩)).buffer_text = "" ∧
      (on_ctrl_c (11 / 2) (on_ctrl_c 5 ⟨0, false, "草稿", ""⟩)).hint = retryHint) :=
  C9_double_interrupt ⟨0, false, "草稿", ""⟩ 5 (11 / 2) rfl (by norm_num)

/-- C2 (counterexample).  The claim states that on every shutdown path
every outstanding `PendingTask` is awaited before exit.  On the
double-interrupt / end-of-input path `get_input_async` returns `None`
and the loop breaks at line 181 of `async_main` without touching
`pending_tasks`: in the run below one task is submitted, never
completes, and the loop exits with it unawaited (1 ≠ 0). -/
theorem C2_shutdown_counterexample :
    WFScript [⟨0, some false⟩, ⟨0, none⟩] 0 ∧
    asyncMainLoop [⟨0, some false⟩, ⟨0, none⟩] 0 0 = some ⟨false, 1, 1, 0⟩ ∧
    (1 : Nat) ≠ 0 := by
  refine ⟨by decide, rfl, by decide⟩

/-- C2 (amended): only the end-action path drains.  When the loop
exits because `ui.should_exit` was observed after a submission
(lines 238-241), every pending task is awaited before exit
(`unawaited = 0`); however even there the outputs buffered after the
final flush — at least the one of the just-submitted task — are never
displayed, and on the `None`-input path (double interrupt or Ctrl+D)
outstanding tasks are neither awaited nor flushed. -/
theorem C2_shutdown_drain_amended :
    ∀ (script : List LoopIterObs) (outstanding submitted : Nat) (info : MainExitInfo),
      asyncMainLoop script outstanding submitted = some info →
      info.viaEndAction = true →
      info.unawaited = 0 ∧ 1 ≤ info.unflushedOutputs := by
  intro script
  induction script with
  | nil =>
      intro o s info h _
      exact absurd h (by simp [asyncMainLoop])
  | cons it rest ih =>
      intro o s info h hend
      cases it with
      | mk cdi outc =>
          cases outc with
          | none =>
              simp only [asyncMainLoop, Option.some.injEq] at h
              rw [← h] at hend
              simp at hend
          | some flag =>
              cases flag with
              | false =>
                  simp only [asyncMainLoop, Bool.false_eq_true, if_false] at h
                  exact ih _ _ _ h hend
              | true =>
                  simp only [asyncMainLoop, if_true, Option.some.injEq] at h
                  rw [← h]
                  simp

/-- Witness for C2_shutdown_drain_amended: a run whose single
iteration submits a task and observes `should_exit`, exiting through
the drain path. -/
theorem C2_shutdown_drain_amended_witness :
    (MainExitInfo.mk true 1 0 1).unawaited = 0 ∧
    1 ≤ (MainExitInfo.mk true 1 0 1).unflushedOutputs :=
  C2_shutdown_drain_amended [⟨0, some true⟩] 0 0 (MainExitInfo.mk true 1 0 1) rfl rfl

theorem pipeSchedule_succ (N : Nat) :
    pipeSchedule (N + 1) =
      pipeSchedule N ++ [LoopEvent.submit N, LoopEvent.complete N] := by
  unfold pipeSchedule
  rw [List.range_succ, List.flatMap_append]
  simp

theorem pipe_submits (N : Nat) :
    (pipeSchedule N).filterMap submitIdx = List.range N := by
  induction N with
  | zero => rfl
  | succ n ih =>
      rw [pipeSchedule_succ, List.filterMap_append, ih, List.range_succ]
      rfl

theorem pipe_completes (N : Nat) :
    (pipeSchedule N).filterMap completeIdx = List.range N := by
  induction N with
  | zero => rfl
  | succ n ih =>
      rw [pipeSchedule_succ, List.filterMap_append, ih, List.range_succ]
      rfl

theorem submit_mem_pipe (i N : Nat) :
    LoopEvent.submit i ∈ pipeSchedule N ↔ i < N := by
  unfold pipeSchedule
  simp [List.mem_flatMap, List.mem_range]

theorem complete_mem_pipe (i N : Nat) :
    LoopEvent.complete i ∈ pipeSchedule N ↔ i < N := by
  unfold pipeSchedule
  simp [List.mem_flatMap, List.mem_range]

theorem firstIdx_append_left (e : LoopEvent) (l1 l2 : List LoopEvent)
    (h : e ∈ l1) : firstIdx e (l1 ++ l2) = firstIdx e l1 := by
  induction l1 with
  | nil => cases h
  | cons x xs ih =>
      by_cases hx : x = e
      · simp [firstIdx, hx]
      · rcases List.mem_cons.mp h with h1 | h1
        · exact absurd h1.symm hx
        · simp [firstIdx, hx, ih h1]

theorem firstIdx_append_right (e : LoopEvent) (l1 l2 : List LoopEvent)
    (h : e ∉ l1) : firstIdx e (l1 ++ l2) = l1.length + firstIdx e l2 := by
  induction l1 with
  | nil => simp [firstIdx]
  | cons x xs ih =>
      have hx : ¬ x = e := fun hc => h (hc ▸ List.mem_cons_self x xs)
      have hxs : e ∉ xs := fun hc => h (List.mem_cons_of_mem x hc)
      simp [firstIdx, hx, ih hxs]
      omega

theorem valid_pipe (N : Nat) : ValidSchedule N (pipeSchedule N) := by
  induction N with
  | zero => decide
  | succ n ih =>
      obtain ⟨_, _, _, ih4⟩ := ih
      refine ⟨?_, ?_, ?_, ?_⟩
      · rw [pipe_submits]
      · rw [pipe_completes, List.length_range]
      · intro i hi
        rw [pipe_completes, List.mem_range]
        exact hi
      · intro i hi
        rw [pipeSchedule_succ]
        by_cases hcase : i < n
        · rw [firstIdx_append_left _ _ _ ((submit_mem_pipe i n).mpr hcase),
            firstIdx_append_left _ _ _ ((complete_mem_pipe i n).mpr hcase)]
          exact ih4 i hcase
        · have hieq : i = n := by omega
          subst hieq
          rw [firstIdx_append_right _ _ _ (fun hc => hcase ((submit_mem_pipe i i).mp hc)),
            firstIdx_append_right _ _ _ (fun hc => hcase ((complete_mem_pipe i i).mp hc))]
          simp [firstIdx]

/-- C1 (counterexample).  The claim requires user messages *and their
replies* to appear in the session history in submission order
regardless of completion order.  In the interactive loop each task
appends its `AIMessage` when it completes (`main.py` lines 197, 203,
214, 226), so a valid schedule in which task 1 finishes before task 0
puts reply 1 before reply 0: the history below has both users in
order and both replies present, but the replies are in completion
order 1, 0, not submission order. -/
theorem C1_history_order_counterexample :
    ValidSchedule 2
      [LoopEvent.submit 0, LoopEvent.submit 1, LoopEvent.complete 1, LoopEvent.complete 0] ∧
    userIdxs (runSchedule
      [LoopEvent.submit 0, LoopEvent.submit 1, LoopEvent.complete 1, LoopEvent.complete 0]) =
      ["输入0", "输入1"] ∧
    (replyIdxs (runSchedule
      [LoopEvent.submit 0, LoopEvent.submit 1, LoopEvent.complete 1, LoopEvent.complete 0])).length = 2 ∧
    replyIdxs (runSchedule
      [LoopEvent.submit 0, LoopEvent.submit 1, LoopEvent.complete 1, LoopEvent.complete 0]) ≠
      (List.range 2).map (fun i => "回复" ++ toString i) := by
  refine ⟨by decide, by decide, by decide, by decide⟩

/-- C1 (amended): for every valid schedule of the interactive loop the
history contains exactly N user messages and exactly N reply messages;
the user messages appear in submission order, but the replies appear in
completion order, which may differ from submission order.  The piped
driver (`AsyncChatSession` + `wait_all_pending` after every input) runs
the particular valid schedule that alternates submit/complete, and for
that schedule the replies are in submission order too. -/
theorem C1_history_order_amended :
    ∀ N : Nat,
      (∀ es, ValidSchedule N es →
        (userIdxs (runSchedule es)).length = N ∧
        (replyIdxs (runSchedule es)).length = N ∧
        userIdxs (runSchedule es) = (List.range N).map (fun i => "输入" ++ toString i) ∧
        replyIdxs (runSchedule es) =
          (es.filterMap completeIdx).map (fun i => "回复" ++ toString i)) ∧
      ValidSchedule N (pipeSchedule N) ∧
      replyIdxs (runSchedule (pipeSchedule N)) =
        (List.range N).map (fun i => "回复" ++ toString i) := by
  intro N
  refine ⟨?_, valid_pipe N, ?_⟩
  · intro es hv
    obtain ⟨h1, h2, _, _⟩ := hv
    refine ⟨?_, ?_, ?_, replyIdxs_run es⟩
    · rw [userIdxs_run, h1, List.length_map, List.length_range]
    · rw [replyIdxs_run, List.length_map, h2]
    · rw [userIdxs_run, h1]
  · rw [replyIdxs_run, pipe_completes]

/-- Witness for C1_history_order_amended at N = 1 with the schedule
that submits and completes one message. -/
theorem C1_history_order_amended_witness :
    (userIdxs (runSchedule [LoopEvent.submit 0, LoopEvent.complete 0])).length = 1 ∧
    (replyIdxs (runSchedule [LoopEvent.submit 0, LoopEvent.complete 0])).length = 1 ∧
    userIdxs (runSchedule [LoopEvent.submit 0, LoopEvent.complete 0]) =
      (List.range 1).map (fun i => "输入" ++ toString i) ∧
    replyIdxs (runSchedule [LoopEvent.submit 0, LoopEvent.complete 0]) =
      ([LoopEvent.submit 0, LoopEvent.complete 0].filterMap completeIdx).map
        (fun i => "回复" ++ toString i) :=
  (C1_history_order_amended 1).1 [LoopEvent.submit 0, LoopEvent.complete 0] (by decide)

theorem routeFromContent_mem (c a : String)
    (h : routeFromContent c = some a) : a ∈ routerActions := by
  unfold routeFromContent at h
  split at h
  · simp at h
  · split at h
    · simp at h
    · split at h
      · split at h
        · rename_i hmem
          injection h with h2
          exact h2 ▸ hmem
        · simp at h
      · simp at h

/-- C4 (counterexample).  The claim says that when the response does
not contain a JSON object whose action field lies in the closed set,
the router returns the keyword-fallback action and warns.  The
response below is a parseable JSON object with no "action" field, so
its action is not in the set; but `data.get("action", "chat")`
(router.py line 74) silently defaults to "chat", which is accepted on
the LLM path: with user text 再见 the router returns ("chat", no
warning) instead of the fallback ("end", warning). -/
theorem C4_router_counterexample :
    routeFromContent "\x7b\"reason\": \"hi\"\x7d" = some "chat" ∧
    route_intent_async (Except.ok "\x7b\"reason\": \"hi\"\x7d") "再见" = ("chat", false) ∧
    keywordFallback "再见" = "end" ∧
    (("chat", false) : String × Bool) ≠ (keywordFallback "再见", true) := by
  refine ⟨rfl, rfl, by decide, by decide⟩

/-- C4 (amended): when the extraction pipeline (first brace chunk,
JSON parse, `action` field defaulting to "chat" when absent) yields an
action, it is always in the closed set and is returned without a
warning — in particular a parseable object lacking an action field
yields "chat" via this LLM path; in every other case (no extractable
chunk, parse failure, non-string or out-of-set action, or a client
error) the router returns the keyword-fallback action and warns.  The
fallback is an exact-phrase match for "time", a substring match for
the summary/end keyword lists, and "chat" by default. -/
theorem C4_router_amended :
    (∀ (u c a : String), routeFromContent c = some a →
      route_intent_async (Except.ok c) u = (a, false) ∧ a ∈ routerActions) ∧
    (∀ (u c : String), routeFromContent c = none →
      route_intent_async (Except.ok c) u = (keywordFallback u, true)) ∧
    (∀ (u e : String), route_intent_async (Except.error e) u = (keywordFallback u, true)) ∧
    keywordFallback "现在几点" = "time" ∧
    keywordFallback "请总结对话" = "summary" ∧
    keywordFallback "再见，朋友" = "end" ∧
    keywordFallback "你好" = "chat" ∧
    keywordFallback "几点了吗" = "chat" := by
  refine ⟨?_, ?_, ?_, by decide, by decide, by decide, by decide, by decide⟩
  · intro u c a h
    refine ⟨?_, routeFromContent_mem c a h⟩
    simp [route_intent_async, h]
  · intro u c h
    simp [route_intent_async, h]
  · intro u e
    rfl

/-- Witness for C4_router_amended: a well-formed "time" decision is
returned unchanged without warning, and a response with no JSON object
falls back with a warning. -/
theorem C4_router_amended_witness :
    (route_intent_async (Except.ok "\x7b\"action\": \"time\"\x7d") "你好" = ("time", false) ∧
      "time" ∈ routerActions) ∧
    route_intent_async (Except.ok "完全不是 JSON") "你好" = (keywordFallback "你好", true) :=
  ⟨C4_router_amended.1 "你好" "\x7b\"action\": \"time\"\x7d" "time" rfl,
   C4_router_amended.2.1 "你好" "完全不是 JSON" rfl⟩

theorem agentLoop_invocations
    (tools : String → Option (Except String String))
    (responses : Nat → Except String LLMResp) :
    ∀ (fuel k : Nat) (msgs : List AgentMsg),
      (agentLoop tools responses fuel k msgs).2 ≤ k + fuel := by
  intro fuel
  induction fuel with
  | zero =>
      intro k msgs
      simp [agentLoop]
  | succ f ih =>
      intro k msgs
      unfold agentLoop
      cases responses k with
      | error e => dsimp only; omega
      | ok resp =>
          dsimp only
          by_cases hT : resp.tool_calls = []
          · rw [if_pos hT]; dsimp only; omega
          · rw [if_neg hT]
            have := ih (k + 1)
              (msgs ++ AgentMsg.ai resp.content resp.tool_calls ::
                resp.tool_calls.map (execToolCall tools))
            omega

theorem agentLoop_all_tools
    (tools : String → Option (Except String String))
    (responses : Nat → Except String LLMResp) :
    ∀ (fuel k : Nat) (msgs : List AgentMsg),
      (∀ j, j < fuel → ∃ r, responses (k + j) = Except.ok r ∧ r.tool_calls ≠ []) →
      agentLoop tools responses fuel k msgs = (agentApology, k + fuel) := by
  intro fuel
  induction fuel with
  | zero =>
      intro k msgs _
      simp [agentLoop]
  | succ f ih =>
      intro k msgs hall
      obtain ⟨r, hr, hne⟩ := hall 0 (by omega)
      unfold agentLoop
      rw [show k + 0 = k from rfl] at hr
      rw [hr]
      dsimp only
      rw [if_neg hne]
      rw [ih (k + 1) _ (fun j hj => by
        obtain ⟨r2, hr2, hne2⟩ := hall (j + 1) (by omega)
        exact ⟨r2, by rw [show k + 1 + j = k + (j + 1) by omega]; exact hr2, hne2⟩)]
      have : k + 1 + f = k + (f + 1) := by omega
  /- align the invocation counts -/
      rw [this]

/-- C10 (confirmed).  `Agent.chat` always terminates with a reply
string: the tool-call loop makes at most 5 chat-client invocations;
if all five responses request tool calls the fixed apology string is
returned after the fifth; an unknown tool name becomes the
"未知工具：" tool message and a raised tool exception the
"工具执行错误：" tool message, both fed back into the loop; and a
chat-client exception is converted into an error reply rather than
escaping. -/
theorem C10_agent_chat_bounded :
    (∀ tools responses sp ui h, (Agent_chat tools responses sp ui h).2 ≤ 5) ∧
    (∀ tools responses sp ui h,
      (∀ j, j < 5 → ∃ r, responses j = Except.ok r ∧ r.tool_calls ≠ []) →
      Agent_chat tools responses sp ui h = (agentApology, 5)) ∧
    (∀ tools (tc : ToolCallRec), tools tc.name = none →
      execToolCall tools tc = AgentMsg.tool ("未知工具：" ++ tc.name) tc.tid tc.name) ∧
    (∀ tools (tc : ToolCallRec) (e : String), tools tc.name = some (Except.error e) →
      execToolCall tools tc = AgentMsg.tool ("工具执行错误：" ++ e) tc.tid tc.name) ∧
    (∀ tools responses sp ui h (e : String), responses 0 = Except.error e →
      Agent_chat tools responses sp ui h = ("抱歉，处理请求时出错：" ++ e, 1)) := by
  refine ⟨?_, ?_, ?_, ?_, ?_⟩
  · intro tools responses sp ui h
    have := agentLoop_invocations tools responses 5 0
      (AgentMsg.sys sp :: h ++ [AgentMsg.human ui])
    simpa [Agent_chat] using this
  · intro tools responses sp ui h hall
    have := agentLoop_all_tools tools responses 5 0
      (AgentMsg.sys sp :: h ++ [AgentMsg.human ui])
      (fun j hj => by simpa using hall j hj)
    simpa [Agent_chat] using this
  · intro tools tc hu
    simp [execToolCall, hu]
  · intro tools tc e he
    simp [execToolCall, he]
  · intro tools responses sp ui h e hr
    simp [Agent_chat, agentLoop, hr]

/-- Witness for C10_agent_chat_bounded: with a client that always
requests a tool call, the loop stops after 5 invocations with the
apology; an unregistered tool name yields the unknown-tool message. -/
theorem C10_agent_chat_bounded_witness :
    Agent_chat (fun _ => none) (fun _ => Except.ok ⟨"继续", [⟨"t", "1"⟩]⟩) "s" "u" [] =
      (agentApology, 5) ∧
    execToolCall (fun _ => none) ⟨"foo", "id1"⟩ =
      AgentMsg.tool ("未知工具：" ++ "foo") "id1" "foo" ∧
    Agent_chat (fun _ => none) (fun _ => Except.error "超时") "s" "u" [] =
      ("抱歉，处理请求时出错：" ++ "超时", 1) :=
  ⟨C10_agent_chat_bounded.2.1 (fun _ => none)
      (fun _ => Except.ok ⟨"继续", [⟨"t", "1"⟩]⟩) "s" "u" []
      (fun j hj => ⟨⟨"继续", [⟨"t", "1"⟩]⟩, rfl, by decide⟩),
   C10_agent_chat_bounded.2.2.1 (fun _ => none) ⟨"foo", "id1"⟩ rfl,
   C10_agent_chat_bounded.2.2.2.2 (fun _ => none) (fun _ => Except.error "超时")
      "s" "u" [] "超时" rfl⟩
